import Mathlib

/-!
Verification development for the `tauri-plugin-tts` repository.

The Rust sources (`src/models.rs`, `src/desktop.rs`) are embedded shallowly:
pure functions become Lean functions over `ℚ` (exact rationals in place of
`f32`), `String` and `List`; fallible code returns `Except`; the engine
session's side effects are reified as explicit effect traces.
-/

deriving instance DecidableEq for Except

namespace TtsPlugin

/-- Maximum text length in bytes, `MAX_TEXT_LENGTH` in `src/models.rs`. -/
def MAX_TEXT_LENGTH : Nat := 10000

/-- Maximum voice ID length, `MAX_VOICE_ID_LENGTH` in `src/models.rs`. -/
def MAX_VOICE_ID_LENGTH : Nat := 256

/-- Maximum language code length, `MAX_LANGUAGE_LENGTH` in `src/models.rs`. -/
def MAX_LANGUAGE_LENGTH : Nat := 35

/-- Byte length of a string under UTF-8, the meaning of Rust `str::len()`
as called in `validate` / `validate_voice_id` / `validate_language`. -/
def utf8ByteLen (s : String) : Nat := (s.toList.map Char.utf8Size).sum

/-- Models Rust `char::is_alphanumeric` (the predicate used by
`SpeakRequest::validate_voice_id` in `src/models.rs`): true iff the character
has the Unicode `Alphabetic` property or is in a Unicode numeric category.
ASCII behaviour is exact; beyond ASCII this development only relies on the
Latin-1 supplement, where the letters are exactly U+00AA, U+00B5, U+00BA and
U+00C0..U+00FF minus the two operators U+00D7 (multiplication sign) and
U+00F7 (division sign), and U+00B2, U+00B3, U+00B9 are numeric. -/
def rustIsAlphanumeric (c : Char) : Bool :=
  c.isAlpha || c.isDigit ||
  (0xC0 ≤ c.toNat && c.toNat ≤ 0xFF && c.toNat ≠ 0xD7 && c.toNat ≠ 0xF7) ||
  c.toNat = 0xAA || c.toNat = 0xB5 || c.toNat = 0xBA ||
  c.toNat = 0xB2 || c.toNat = 0xB3 || c.toNat = 0xB9

/-- Models Rust `f32::clamp` on non-NaN inputs, as used for rate, pitch and
volume in `SpeakRequest::validate` and for `t` in
`normalize_rate_for_platform`. -/
def clamp (x lo hi : ℚ) : ℚ :=
  if x < lo then lo else if hi < x then hi else x

/-- `QueueMode` from `src/models.rs`. -/
inductive QueueMode where
  | flush
  | add
deriving DecidableEq, Repr

/-- `SpeakRequest` from `src/models.rs` (serde defaults already applied:
rate, pitch, volume default to 1.0, queue_mode to Flush). -/
structure SpeakRequest where
  text : String
  language : Option String
  voice_id : Option String
  rate : ℚ
  pitch : ℚ
  volume : ℚ
  queue_mode : QueueMode
deriving Repr

/-- `ValidationError` from `src/models.rs`. -/
inductive ValidationError where
  | emptyText
  | textTooLong (len max : Nat)
  | voiceIdTooLong (len max : Nat)
  | invalidVoiceId
  | languageTooLong (len max : Nat)
deriving DecidableEq, Repr

/-- `ValidatedSpeakRequest` from `src/models.rs`. -/
structure ValidatedSpeakRequest where
  text : String
  language : Option String
  voice_id : Option String
  rate : ℚ
  pitch : ℚ
  volume : ℚ
  queue_mode : QueueMode
deriving DecidableEq, Repr

/-- `SpeakRequest::validate_voice_id` from `src/models.rs`: byte-length
check first, then the character check
`c.is_alphanumeric() || c == '.' || c == '_' || c == '-'`. -/
def SpeakRequest.validate_voice_id (id : String) : Except ValidationError String :=
  if MAX_VOICE_ID_LENGTH < utf8ByteLen id then
    .error (.voiceIdTooLong (utf8ByteLen id) MAX_VOICE_ID_LENGTH)
  else if !(id.toList.all fun c => rustIsAlphanumeric c || c == '.' || c == '_' || c == '-') then
    .error .invalidVoiceId
  else
    .ok id

/-- `SpeakRequest::validate_language` from `src/models.rs`. -/
def SpeakRequest.validate_language (lang : String) : Except ValidationError String :=
  if MAX_LANGUAGE_LENGTH < utf8ByteLen lang then
    .error (.languageTooLong (utf8ByteLen lang) MAX_LANGUAGE_LENGTH)
  else
    .ok lang

/-- Models the Rust idiom `opt.as_ref().map(f).transpose()?` used in
`SpeakRequest::validate` for the optional voice_id and language fields. -/
def transposeValidate (f : String → Except ValidationError String) :
    Option String → Except ValidationError (Option String)
  | none => .ok none
  | some s => (f s).map some

/-- `SpeakRequest::validate` from `src/models.rs`: empty-text check, then
byte-length check, then voice_id validation (when present), then language
validation (when present), then clamping of rate / pitch / volume. -/
def SpeakRequest.validate (req : SpeakRequest) :
    Except ValidationError ValidatedSpeakRequest :=
  if req.text.isEmpty then .error .emptyText
  else if MAX_TEXT_LENGTH < utf8ByteLen req.text then
    .error (.textTooLong (utf8ByteLen req.text) MAX_TEXT_LENGTH)
  else
    match transposeValidate SpeakRequest.validate_voice_id req.voice_id with
    | .error e => .error e
    | .ok vid =>
      match transposeValidate SpeakRequest.validate_language req.language with
      | .error e => .error e
      | .ok lang =>
        .ok ⟨req.text, lang, vid,
             clamp req.rate 0.1 4.0,
             clamp req.pitch 0.5 2.0,
             clamp req.volume 0.0 1.0,
             req.queue_mode⟩

/-- `SpeakResponse` from `src/models.rs`. -/
structure SpeakResponse where
  success : Bool
  warning : Option String
deriving DecidableEq, Repr

/-- `StopResponse` from `src/models.rs`. -/
structure StopResponse where
  success : Bool
deriving DecidableEq, Repr

/-- `Voice` from `src/models.rs`. -/
structure Voice where
  id : String
  name : String
  language : String
deriving DecidableEq, Repr

/-- `GetVoicesRequest` from `src/models.rs`. -/
structure GetVoicesRequest where
  language : Option String
deriving DecidableEq, Repr

/-- `GetVoicesResponse` from `src/models.rs`. -/
structure GetVoicesResponse where
  voices : List Voice
deriving DecidableEq, Repr

/-- `PauseResumeResponse` from `src/models.rs`. -/
structure PauseResumeResponse where
  success : Bool
  reason : Option String
deriving DecidableEq, Repr

/-- `PreviewVoiceRequest` from `src/models.rs`. -/
structure PreviewVoiceRequest where
  voice_id : String
  text : Option String
deriving Repr

/-- `PreviewVoiceRequest::DEFAULT_SAMPLE_TEXT` from `src/models.rs`. -/
def PreviewVoiceRequest.DEFAULT_SAMPLE_TEXT : String :=
  "Hello! This is a sample of how this voice sounds."

/-- `PreviewVoiceRequest::sample_text` from `src/models.rs`. -/
def PreviewVoiceRequest.sample_text (r : PreviewVoiceRequest) : String :=
  match r.text with
  | some t => t
  | none => PreviewVoiceRequest.DEFAULT_SAMPLE_TEXT

/-- `PreviewVoiceRequest::validate` from `src/models.rs`: voice_id
validation, then emptiness and byte-length validation of the custom text
when provided. -/
def PreviewVoiceRequest.validate (r : PreviewVoiceRequest) :
    Except ValidationError Unit :=
  match SpeakRequest.validate_voice_id r.voice_id with
  | .error e => .error e
  | .ok _ =>
    match r.text with
    | some t =>
      if t.isEmpty then .error .emptyText
      else if MAX_TEXT_LENGTH < utf8ByteLen t then
        .error (.textTooLong (utf8ByteLen t) MAX_TEXT_LENGTH)
      else .ok ()
    | none => .ok ()

/-- `SpeechEvent` from `src/desktop.rs`. -/
structure SpeechEvent where
  id : Option String
  event_type : Option String
deriving DecidableEq, Repr

/-- Engine-side failure, modelling `tts::Error` values surfaced through
`crate::Error::Tts` (the message is the engine-provided string). -/
inductive EngineError where
  | engineFailure (msg : String)
deriving DecidableEq, Repr

/-- The desktop-relevant variants of `crate::Error` from `src/error.rs`
(`Io` and the mobile-only `PluginInvoke` cannot arise in the embedded
desktop operations and are omitted). -/
inductive Error where
  | tts (e : EngineError)
  | lockError
  | mutexPoisoned
  | notInitialized
  | validation (e : ValidationError)
  | operationFailed (msg : String)
deriving DecidableEq, Repr

/-- A native voice as exposed by the `tts` crate inside `get_voices` and
`speak` (`v.id()`, `v.name()`, `v.language()`). -/
structure NativeVoice where
  id : String
  name : String
  language : String
deriving DecidableEq, Repr

/-- The engine handle as observed by one operation of the session: the
outcomes of the native calls the operation may make, the engine's rate
bounds, and whether the engine mutex is poisoned. -/
structure EngineEnv where
  voicesResult : Except EngineError (List NativeVoice)
  min_rate : ℚ
  normal_rate : ℚ
  max_rate : ℚ
  speakResult : Except EngineError Unit
  stopResult : Except EngineError Unit
  lockPoisoned : Bool
deriving Repr

/-- `normalize_rate_for_platform` from `src/desktop.rs`, over exact
rationals in place of `f32`. -/
def normalize_rate_for_platform (engine : EngineEnv) (user_rate : ℚ) : ℚ :=
  let normal := engine.normal_rate
  let mn := engine.min_rate
  let mx := engine.max_rate
  if user_rate ≤ 1.0 then
    let t := (user_rate - 0.25) / 0.75
    let t := clamp t 0.0 1.0
    mn + t * (normal - mn)
  else
    let t := (user_rate - 1.0) / 3.0
    let t := clamp t 0.0 1.0
    normal + t * (mx - normal)

/-- Round a rational to the nearest integer, ties to even. -/
def rne (q : ℚ) : ℤ :=
  if q - ⌊q⌋ < 1 / 2 then ⌊q⌋
  else if 1 / 2 < q - ⌊q⌋ then ⌊q⌋ + 1
  else if ⌊q⌋ % 2 = 0 then ⌊q⌋ else ⌊q⌋ + 1

/-- Models IEEE-754 binary32 round-to-nearest-even for finite nonzero
values in the normal range: the value is scaled into `[2^23, 2^24)`, its
significand rounded to an integer (24 significant bits), and scaled back.
Overflow and subnormals are not modelled; for the magnitudes appearing in
the theorems below this agrees with Rust `f32` arithmetic. -/
def f32round (q : ℚ) : ℚ :=
  if q = 0 then 0
  else rne (q / 2 ^ (Int.log 2 |q| - 23)) * 2 ^ (Int.log 2 |q| - 23)

/-- The `f32` evaluation of `normalize_rate_for_platform` from
`src/desktop.rs`: the same expression tree, with every arithmetic
operation correctly rounded to binary32 (inputs are assumed
representable; the literals 0.25, 0.75, 1.0, 3.0 are exact in binary32;
`clamp` only compares and never rounds). -/
def normalize_rate_f32 (mn normal mx user_rate : ℚ) : ℚ :=
  if user_rate ≤ 1.0 then
    f32round (mn +
      f32round (clamp (f32round (f32round (user_rate - 0.25) / 0.75)) 0.0 1.0 *
        f32round (normal - mn)))
  else
    f32round (normal +
      f32round (clamp (f32round (f32round (user_rate - 1.0) / 3.0)) 0.0 1.0 *
        f32round (mx - normal)))

/-- One observable action of the engine session: an event emission or a
native-engine call (`src/desktop.rs`). -/
inductive Effect where
  | emitEvent (eventName : String) (ev : SpeechEvent)
  | acquireEngineLock
  | queryVoices
  | setVoice (voiceId : String)
  | setRate (r : ℚ)
  | setPitch (p : ℚ)
  | setVolume (v : ℚ)
  | engineSpeak (text : String) (interrupt : Bool)
  | engineStop
deriving DecidableEq, Repr

/-- The event-name mapping of `EventEmitter::emit` and `Tts::emit_event`
in `src/desktop.rs`: the delivered Tauri event name is the kind prefixed
with the scheme. -/
def emit_event_full_name (eventName : String) : String :=
  "tts://" ++ eventName

/-- The effect of the `on_utterance_end` callback installed in `init`
(`src/desktop.rs`). -/
def on_utterance_end_effect : Effect :=
  .emitEvent "speech:finish" ⟨none, some "finish"⟩

/-- The effect of the `on_utterance_stop` callback installed in `init`
(`src/desktop.rs`). -/
def on_utterance_stop_effect : Effect :=
  .emitEvent "speech:cancel" ⟨none, some "cancel"⟩

/-- The `speech:start` emission of `Tts::speak` in `src/desktop.rs`,
carrying the freshly generated utterance id. -/
def speakStartEvent (utterance_id : String) : Effect :=
  .emitEvent "speech:start" ⟨some utterance_id, some "start"⟩

/-- The voice-resolution block of `Tts::speak` in `src/desktop.rs`: when a
voice id was requested, enumerate the engine's voices (errors ignored)
and set the first voice whose native id matches (absence ignored). -/
def speakVoiceOps (env : EngineEnv) (validated : ValidatedSpeakRequest) : List Effect :=
  match validated.voice_id with
  | some vid =>
    match env.voicesResult with
    | .ok nvs =>
      .queryVoices ::
        (match nvs.find? (fun v => v.id == vid) with
         | some v => [.setVoice v.id]
         | none => [])
    | .error _ => [.queryVoices]
  | none => []

/-- The parameter block of `Tts::speak` in `src/desktop.rs`: skipped
entirely when rate, pitch and volume are all exactly 1.0; otherwise each
parameter that differs from 1.0 is set, the rate after platform
normalization. -/
def speakParamOps (env : EngineEnv) (validated : ValidatedSpeakRequest) : List Effect :=
  if validated.rate = 1.0 ∧ validated.pitch = 1.0 ∧ validated.volume = 1.0 then []
  else
    (if validated.rate ≠ 1.0 then
      [.setRate (normalize_rate_for_platform env validated.rate)] else []) ++
    (if validated.pitch ≠ 1.0 then [.setPitch validated.pitch] else []) ++
    (if validated.volume ≠ 1.0 then [.setVolume validated.volume] else [])

/-- `Tts::speak` from `src/desktop.rs`, reified as result plus ordered
effect trace: validate, emit `speech:start` with the freshly generated
utterance id, acquire the engine lock, optionally resolve and set the
voice, apply the parameter setters under the all-defaults skip rule,
then invoke native speak with `interrupt = (queue_mode != Add)`. -/
def Tts.speak (env : EngineEnv) (utterance_id : String) (payload : SpeakRequest) :
    Except Error SpeakResponse × List Effect :=
  match payload.validate with
  | .error e => (.error (.validation e), [])
  | .ok validated =>
    if env.lockPoisoned then (.error .mutexPoisoned, [speakStartEvent utterance_id])
    else
      let trace := speakStartEvent utterance_id :: .acquireEngineLock ::
        (speakVoiceOps env validated ++ speakParamOps env validated ++
          [.engineSpeak validated.text (validated.queue_mode != QueueMode.add)])
      match env.speakResult with
      | .error e => (.error (.tts e), trace)
      | .ok _ => (.ok ⟨true, none⟩, trace)

/-- `Tts::stop` from `src/desktop.rs`: unconditionally emit the fallback
`speech:cancel` event, then stop the engine under the lock. -/
def Tts.stop (env : EngineEnv) : Except Error StopResponse × List Effect :=
  let cancelEvent : Effect := .emitEvent "speech:cancel" ⟨none, some "cancel"⟩
  if env.lockPoisoned then (.error .mutexPoisoned, [cancelEvent])
  else
    match env.stopResult with
    | .error e => (.error (.tts e), [cancelEvent, .acquireEngineLock, .engineStop])
    | .ok _ => (.ok ⟨true⟩, [cancelEvent, .acquireEngineLock, .engineStop])

/-- `Tts::preview_voice` from `src/desktop.rs`: validate the preview
request, then speak the sample text with the given voice at default
rate, pitch and volume in flush mode. -/
def Tts.preview_voice (env : EngineEnv) (utterance_id : String)
    (payload : PreviewVoiceRequest) : Except Error SpeakResponse × List Effect :=
  match payload.validate with
  | .error e => (.error (.validation e), [])
  | .ok _ =>
    Tts.speak env utterance_id
      ⟨payload.sample_text, none, some payload.voice_id, 1.0, 1.0, 1.0, .flush⟩

/-- `Tts::pause_speaking` from `src/desktop.rs`. -/
def Tts.pause_speaking : Except Error PauseResumeResponse :=
  .ok ⟨false, some "Pause is not supported on desktop platform"⟩

/-- `Tts::resume_speaking` from `src/desktop.rs`. -/
def Tts.resume_speaking : Except Error PauseResumeResponse :=
  .ok ⟨false, some "Resume is not supported on desktop platform"⟩

/-- `VoiceCache` from `src/desktop.rs`, with the capture instant as a
rational timestamp in seconds. -/
structure VoiceCache where
  voices : List Voice
  cached_at : ℚ
deriving DecidableEq, Repr

/-- `VoiceCache::TTL` from `src/desktop.rs` (60 seconds). -/
def VoiceCache.TTL : ℚ := 60

/-- `VoiceCache::is_valid` from `src/desktop.rs`:
`cached_at.elapsed() < TTL`, with `elapsed = now - cached_at`. -/
def VoiceCache.is_valid (c : VoiceCache) (now : ℚ) : Bool :=
  decide (now - c.cached_at < VoiceCache.TTL)

/-- Models Rust `str::to_lowercase` as used by `filter_voices`; exact on
ASCII, which is all the development relies on. -/
def rustToLowercase (s : String) : String := s.toLower

/-- Models Rust `str::contains` (substring containment); on valid UTF-8
this coincides with infix containment of the character sequences. -/
def containsSubstr (hay needle : String) : Bool :=
  go needle.toList hay.toList
where
  go (n : List Char) : List Char → Bool
    | [] => n.isEmpty
    | c :: t => n.isPrefixOf (c :: t) || go n t

/-- `Tts::filter_voices` from `src/desktop.rs`: case-insensitive
substring match on the voice language; absent filter keeps all. -/
def filter_voices (voices : List Voice) (language : Option String) :
    GetVoicesResponse :=
  ⟨voices.filter fun v =>
    match language with
    | some lang_filter =>
      containsSubstr (rustToLowercase v.language) (rustToLowercase lang_filter)
    | none => true⟩

/-- Outcome of one `get_voices` call: its result, the cache state after
the call, and whether the engine's voice enumeration was invoked. -/
structure GetVoicesStep where
  result : Except Error GetVoicesResponse
  cache : Option VoiceCache
  engineEnumerated : Bool
deriving Repr

/-- `Tts::get_voices` from `src/desktop.rs`: serve from the cache when a
snapshot exists and is within TTL; otherwise enumerate the engine, map
the native voices, replace the snapshot wholesale (timestamped `now`)
and serve from the fresh list. On an enumeration failure the error
propagates and the cache is left unchanged. The lock-poisoning branches
(which only turn the result into `MutexPoisoned`) are not modelled. -/
def Tts.get_voices (cache : Option VoiceCache) (now : ℚ)
    (engineVoices : Except EngineError (List NativeVoice))
    (payload : GetVoicesRequest) : GetVoicesStep :=
  let hit : Option (List Voice) :=
    match cache with
    | some c => if c.is_valid now then some c.voices else none
    | none => none
  match hit with
  | some vs => ⟨.ok (filter_voices vs payload.language), cache, false⟩
  | none =>
    match engineVoices with
    | .error e => ⟨.error (.tts e), cache, true⟩
    | .ok nvs =>
      let voices := nvs.map fun v => Voice.mk v.id v.name v.language
      ⟨.ok (filter_voices voices payload.language), some ⟨voices, now⟩, true⟩

/-- A parameter-setter call among the effects (`set_rate`, `set_pitch`,
`set_volume` on the engine). -/
def Effect.isParamSetter : Effect → Bool
  | .setRate _ => true
  | .setPitch _ => true
  | .setVolume _ => true
  | _ => false

/-- Event kinds actually passed to `emit_event` by a trace. -/
def emittedEventNames (trace : List Effect) : List String :=
  trace.filterMap fun e =>
    match e with
    | .emitEvent n _ => some n
    | _ => none

/-- Whether an `Except` result is a success. -/
def exceptIsOk {ε α : Type} : Except ε α → Bool
  | .ok _ => true
  | .error _ => false

/-- Claim-side definition (spec wording of C4, language rule): the first
failure among the language rules, `none` when the language passes. -/
def firstLanguageFailure (req : SpeakRequest) : Option ValidationError :=
  match req.language with
  | some lang =>
    if MAX_LANGUAGE_LENGTH < utf8ByteLen lang then
      some (.languageTooLong (utf8ByteLen lang) MAX_LANGUAGE_LENGTH)
    else none
  | none => none

/-- Claim-side definition (spec wording of C4): the validation rules in
the claimed fixed order, first failure winning — empty text, then text
byte length, then (when present) voice-id length then voice-id charset,
then (when present) language length. -/
def firstValidationFailure (req : SpeakRequest) : Option ValidationError :=
  if req.text.isEmpty then some .emptyText
  else if MAX_TEXT_LENGTH < utf8ByteLen req.text then
    some (.textTooLong (utf8ByteLen req.text) MAX_TEXT_LENGTH)
  else
    match req.voice_id with
    | some vid =>
      if MAX_VOICE_ID_LENGTH < utf8ByteLen vid then
        some (.voiceIdTooLong (utf8ByteLen vid) MAX_VOICE_ID_LENGTH)
      else if !(vid.toList.all fun c =>
          rustIsAlphanumeric c || c == '.' || c == '_' || c == '-') then
        some .invalidVoiceId
      else firstLanguageFailure req
    | none => firstLanguageFailure req

/-- Claim-side definition (spec wording of C6): the charset
`[A-Za-z0-9._-]` the spec declares for voice IDs. -/
def specAllowedChar (c : Char) : Bool :=
  ('A' ≤ c && c ≤ 'Z') || ('a' ≤ c && c ≤ 'z') || ('0' ≤ c && c ≤ '9') ||
  c == '.' || c == '_' || c == '-'

/-- Claim-side definition (C10): a raw event kind is delivered correctly
when its delivered name is one of the three `tts://`-prefixed event
names and not one of the bare kinds. -/
def deliveredNameOk (n : String) : Bool :=
  (emit_event_full_name n == "tts://speech:start" ||
   emit_event_full_name n == "tts://speech:finish" ||
   emit_event_full_name n == "tts://speech:cancel") &&
  !(emit_event_full_name n == "speech:start") &&
  !(emit_event_full_name n == "speech:finish") &&
  !(emit_event_full_name n == "speech:cancel")

/-- A sample request used to instantiate theorems at concrete inputs. -/
def sampleRequest : SpeakRequest := ⟨"Hi", none, none, 999, 0.1, 5, .flush⟩

/-- A request with empty text, rejected by validation. -/
def emptyTextRequest : SpeakRequest := ⟨"", none, none, 1, 1, 1, .flush⟩

/-- A request with all parameters at their defaults. -/
def defaultsRequest : SpeakRequest := ⟨"Hi", none, some "voice-1", 1, 1, 1, .flush⟩

/-- A sample preview request used to instantiate theorems. -/
def samplePreview : PreviewVoiceRequest := ⟨"voice-1", none⟩

/-- The validated form of `sampleRequest`. -/
def sampleValidated : ValidatedSpeakRequest := ⟨"Hi", none, none, 4, 0.5, 1, .flush⟩

/-- A sample engine environment used to instantiate theorems at concrete
inputs. -/
def sampleEngine : EngineEnv :=
  ⟨.ok [⟨"voice-1", "Voice One", "en-US"⟩], 0, 0.5, 1, .ok (), .ok (), false⟩

/-! ## Theorems -/

theorem rne_intCast (z : ℤ) : rne (z : ℚ) = z := by
  unfold rne
  norm_num

theorem f32round_exact (q : ℚ) (m lg : ℤ) (hq : q ≠ 0)
    (hlog : Int.log 2 |q| = lg) (hm : q / 2 ^ (lg - 23) = (m : ℚ)) :
    f32round q = m * 2 ^ (lg - 23) := by
  unfold f32round
  rw [if_neg hq, hlog, hm, rne_intCast]

theorem f32round_of_floor_lt_half (q : ℚ) (lg f : ℤ) (hq : q ≠ 0)
    (hlog : Int.log 2 |q| = lg)
    (hf : ⌊q / 2 ^ (lg - 23)⌋ = f)
    (hr : q / 2 ^ (lg - 23) - f < 1 / 2) :
    f32round q = f * 2 ^ (lg - 23) := by
  unfold f32round rne
  rw [if_neg hq, hlog, hf, if_pos hr]

theorem f32round_zero : f32round 0 = 0 := by
  unfold f32round
  norm_num

theorem abs_of_pos_rat (q : ℚ) (h : 0 < q) : |q| = q := abs_of_pos h

theorem abs_of_neg_rat (q a : ℚ) (h : q < 0) (ha : -q = a) : |q| = a := by
  rw [abs_of_neg h, ha]

theorem log2_three_quarters : Int.log 2 (3 / 4 : ℚ) = -1 := by
  rw [Int.log_of_right_le_one 2 (by norm_num)]
  have hc : ⌈((3 / 4 : ℚ))⁻¹⌉₊ = 2 := by
    rw [show ((3 / 4 : ℚ))⁻¹ = 4 / 3 by norm_num]
    rw [Nat.ceil_eq_iff (by norm_num)]
    norm_num
  rw [hc, Nat.clog_eq_one (by norm_num) (by norm_num)]
  norm_num

theorem log2_67108863 : Int.log 2 (67108863 : ℚ) = 25 := by
  rw [show (67108863 : ℚ) = ((67108863 : ℕ) : ℚ) by norm_num, Int.log_natCast]
  have h : Nat.log 2 67108863 = 25 :=
    Nat.log_eq_of_pow_le_of_lt_pow (by norm_num) (by norm_num)
  rw [h]
  norm_num

theorem log2_67108864 : Int.log 2 (67108864 : ℚ) = 26 := by
  rw [show (67108864 : ℚ) = ((67108864 : ℕ) : ℚ) by norm_num, Int.log_natCast]
  have h : Nat.log 2 67108864 = 26 :=
    Nat.log_eq_of_pow_le_of_lt_pow (by norm_num) (by norm_num)
  rw [h]
  norm_num

theorem log2_134217728 : Int.log 2 (134217728 : ℚ) = 27 := by
  rw [show (134217728 : ℚ) = ((134217728 : ℕ) : ℚ) by norm_num, Int.log_natCast]
  have h : Nat.log 2 134217728 = 27 :=
    Nat.log_eq_of_pow_le_of_lt_pow (by norm_num) (by norm_num)
  rw [h]
  norm_num

theorem f32round_three_quarters : f32round (3 / 4 : ℚ) = 3 / 4 := by
  have h := f32round_exact (3 / 4 : ℚ) 12582912 (-1) (by norm_num)
    (by rw [abs_of_pos_rat _ (by norm_num)]
        exact log2_three_quarters)
    (by norm_num)
  rw [h]
  norm_num

theorem f32round_one : f32round (1 : ℚ) = 1 := by
  have h := f32round_exact (1 : ℚ) 8388608 0 (by norm_num)
    (by rw [abs_of_pos_rat _ (by norm_num)]
        exact Int.log_one_right 2)
    (by norm_num)
  rw [h]
  norm_num

theorem f32round_67108864 : f32round (67108864 : ℚ) = 67108864 := by
  have h := f32round_exact (67108864 : ℚ) 8388608 26 (by norm_num)
    (by rw [abs_of_pos_rat _ (by norm_num)]
        exact log2_67108864)
    (by norm_num)
  rw [h]
  norm_num

theorem f32round_134217728 : f32round (134217728 : ℚ) = 134217728 := by
  have h := f32round_exact (134217728 : ℚ) 8388608 27 (by norm_num)
    (by rw [abs_of_pos_rat _ (by norm_num)]
        exact log2_134217728)
    (by norm_num)
  rw [h]
  norm_num

theorem f32round_neg67108863 : f32round (-67108863 : ℚ) = -67108864 := by
  have h := f32round_of_floor_lt_half (-67108863 : ℚ) 25 (-16777216) (by norm_num)
    (by rw [abs_of_neg_rat _ 67108863 (by norm_num) (by norm_num)]
        exact log2_67108863)
    (by rw [Int.floor_eq_iff]
        norm_num)
    (by norm_num)
  rw [h]
  norm_num

theorem f32round_neg67108864 : f32round (-67108864 : ℚ) = -67108864 := by
  have h := f32round_exact (-67108864 : ℚ) (-8388608) 26 (by norm_num)
    (by rw [abs_of_neg_rat _ 67108864 (by norm_num) (by norm_num)]
        exact log2_67108864)
    (by norm_num)
  rw [h]
  norm_num

/-- C1: for every engine rate-bounds triple and every user rate in
[0.1, 4.0], the rate normalizer returns
`min + clamp((r - 0.25)/0.75, 0, 1) * (normal - min)` when `r ≤ 1.0`,
and `normal + clamp((r - 1.0)/3.0, 0, 1) * (max - normal)` when
`r > 1.0`. -/
theorem c1_normalize_rate_piecewise (engine : EngineEnv) (r : ℚ)
    (h1 : 0.1 ≤ r) (h2 : r ≤ 4.0) :
    (r ≤ 1.0 → normalize_rate_for_platform engine r =
      engine.min_rate +
        clamp ((r - 0.25) / 0.75) 0.0 1.0 * (engine.normal_rate - engine.min_rate)) ∧
    (1.0 < r → normalize_rate_for_platform engine r =
      engine.normal_rate +
        clamp ((r - 1.0) / 3.0) 0.0 1.0 * (engine.max_rate - engine.normal_rate)) := by
  unfold normalize_rate_for_platform
  constructor
  · intro h
    rw [if_pos h]
  · intro h
    rw [if_neg (not_le.mpr h)]

theorem c1_witness :
    (0.1 : ℚ) ≤ 0.5 ∧ (0.5 : ℚ) ≤ 4.0 ∧ (0.5 : ℚ) ≤ 1.0 ∧
    normalize_rate_for_platform sampleEngine 0.5 =
      sampleEngine.min_rate +
        clamp ((0.5 - 0.25) / 0.75) 0.0 1.0 *
          (sampleEngine.normal_rate - sampleEngine.min_rate) :=
  ⟨by norm_num, by norm_num, by norm_num,
    (c1_normalize_rate_piecewise sampleEngine 0.5 (by norm_num) (by norm_num)).1
      (by norm_num)⟩

/-- C2 (amended): for every engine rate-bounds triple, normalizing a user
rate of exactly 1.0 computes `min + 1.0 * (normal - min)`; in exact
arithmetic this equals `bounds.normal`. In the implementation's `f32`
arithmetic the identity `min + 1.0 * (normal - min) == normal` does NOT
hold for all `min` and `normal` (see `c2_counterexample`). -/
theorem c2_normalize_rate_one_exact (engine : EngineEnv) :
    normalize_rate_for_platform engine 1.0 = engine.normal_rate := by
  unfold normalize_rate_for_platform
  rw [if_pos (by norm_num : (1.0 : ℚ) ≤ 1.0)]
  rw [show ((1.0 : ℚ) - 0.25) / 0.75 = 1 by norm_num]
  show engine.min_rate + clamp 1 0.0 1.0 * (engine.normal_rate - engine.min_rate) =
    engine.normal_rate
  rw [show clamp 1 0.0 1.0 = 1 by unfold clamp; norm_num]
  ring

/-- C2 is false as stated for `f32` arithmetic: with the representable
binary32 bounds `min = 2^26`, `normal = 1`, `max = 2^27`, the `f32`
evaluation of `normalize_rate_for_platform` at user rate 1.0 returns 0,
not `bounds.normal = 1` — the subtraction `normal - min` rounds
`1 - 2^26` to `-2^26`, and adding `min` back yields 0. -/
theorem c2_counterexample :
    f32round 67108864 = 67108864 ∧ f32round 1 = 1 ∧
    f32round 134217728 = 134217728 ∧
    normalize_rate_f32 67108864 1 134217728 1 = 0 ∧ (0 : ℚ) ≠ 1 := by
  refine ⟨f32round_67108864, f32round_one, f32round_134217728, ?_, by norm_num⟩
  unfold normalize_rate_f32
  rw [if_pos (by norm_num : (1 : ℚ) ≤ 1.0)]
  rw [show (1 : ℚ) - 0.25 = 3 / 4 by norm_num, f32round_three_quarters]
  rw [show (3 / 4 : ℚ) / 0.75 = 1 by norm_num, f32round_one]
  rw [show clamp 1 0.0 1.0 = 1 by unfold clamp; norm_num]
  rw [show (1 : ℚ) - 67108864 = -67108863 by norm_num, f32round_neg67108863]
  rw [show (1 : ℚ) * -67108864 = -67108864 by norm_num, f32round_neg67108864]
  rw [show (67108864 : ℚ) + -67108864 = 0 by norm_num, f32round_zero]

/-- C4: `validate` applies its rules in a fixed order with the first
failure winning — empty text, then text byte length over 10000, then
(when a voice id is present) voice-id length over 256 then disallowed
character, then (when a language is present) language length over 35 —
and a request violating none of these validates successfully. -/
theorem c4_validate_first_failure_order (req : SpeakRequest) :
    match firstValidationFailure req with
    | some e => req.validate = .error e
    | none => ∃ v, req.validate = .ok v := by
  rcases req with ⟨text, language, voice_id, rate, pitch, volume, qm⟩
  unfold firstValidationFailure firstLanguageFailure SpeakRequest.validate
  rcases voice_id with _ | vid <;> rcases language with _ | lang <;>
    simp only [transposeValidate, SpeakRequest.validate_voice_id,
      SpeakRequest.validate_language, Except.map] <;>
    split_ifs <;> simp [Except.map]

theorem clamp_mem (x lo hi : ℚ) (h : lo ≤ hi) :
    lo ≤ clamp x lo hi ∧ clamp x lo hi ≤ hi := by
  unfold clamp
  split_ifs with h1 h2
  exacts [⟨le_refl lo, h⟩, ⟨h, le_refl hi⟩, ⟨le_of_not_lt h1, le_of_not_lt h2⟩]

theorem validate_ok_shape (req : SpeakRequest) (v : ValidatedSpeakRequest)
    (h : req.validate = .ok v) :
    v.rate = clamp req.rate 0.1 4.0 ∧ v.pitch = clamp req.pitch 0.5 2.0 ∧
    v.volume = clamp req.volume 0.0 1.0 := by
  unfold SpeakRequest.validate at h
  split_ifs at h
  split at h
  · exact absurd h (by simp)
  · split at h
    · exact absurd h (by simp)
    · simp only [Except.ok.injEq] at h
      subst h
      exact ⟨rfl, rfl, rfl⟩

/-- C5: validation never rejects on rate, pitch or volume (replacing them
by arbitrary values does not change whether validation succeeds), and a
validated request's rate always lies in [0.1, 4.0], its pitch in
[0.5, 2.0] and its volume in [0.0, 1.0]. -/
theorem c5_validate_clamps_never_rejects (req : SpeakRequest) (r p vol : ℚ) :
    exceptIsOk (SpeakRequest.validate
        ⟨req.text, req.language, req.voice_id, r, p, vol, req.queue_mode⟩) =
      exceptIsOk req.validate ∧
    ∀ v, req.validate = .ok v →
      (0.1 ≤ v.rate ∧ v.rate ≤ 4.0) ∧ (0.5 ≤ v.pitch ∧ v.pitch ≤ 2.0) ∧
      (0.0 ≤ v.volume ∧ v.volume ≤ 1.0) := by
  constructor
  · rcases req with ⟨text, language, voice_id, rate, pitch, volume, qm⟩
    unfold SpeakRequest.validate
    simp only
    split_ifs <;> try rfl
    cases transposeValidate SpeakRequest.validate_voice_id voice_id <;>
      cases transposeValidate SpeakRequest.validate_language language <;> rfl
  · intro v h
    obtain ⟨hr, hp, hv⟩ := validate_ok_shape req v h
    rw [hr, hp, hv]
    exact ⟨clamp_mem _ _ _ (by norm_num), clamp_mem _ _ _ (by norm_num),
      clamp_mem _ _ _ (by norm_num)⟩

theorem c5_witness :
    (0.1 ≤ sampleValidated.rate ∧ sampleValidated.rate ≤ 4.0) ∧
    (0.5 ≤ sampleValidated.pitch ∧ sampleValidated.pitch ≤ 2.0) ∧
    (0.0 ≤ sampleValidated.volume ∧ sampleValidated.volume ≤ 1.0) :=
  (c5_validate_clamps_never_rejects sampleRequest 1 1 1).2 sampleValidated
    (by unfold sampleRequest SpeakRequest.validate
        rw [if_neg (by decide), if_neg (by decide)]
        simp only [transposeValidate]
        norm_num [clamp, sampleValidated])

/-- C6 is false as stated: the code's charset check is Rust
`char::is_alphanumeric`, which accepts any Unicode alphanumeric, so the
voice id `"é"` — whose character lies outside `[A-Za-z0-9._-]` — is
accepted rather than rejected; and a 257-byte voice id made of `'<'`
characters (all outside the charset) is rejected as `VoiceIdTooLong`,
not `InvalidVoiceId`, because the length rule runs first. -/
theorem c6_counterexample :
    ('é' ∈ "é".toList ∧ specAllowedChar 'é' = false ∧
      SpeakRequest.validate_voice_id "é" = .ok "é" ∧
      PreviewVoiceRequest.validate ⟨"é", none⟩ = .ok ()) ∧
    ((String.mk (List.replicate 257 '<')).toList.all specAllowedChar = false ∧
      SpeakRequest.validate_voice_id (String.mk (List.replicate 257 '<')) =
        .error (.voiceIdTooLong 257 256)) :=
  ⟨⟨by decide, by decide, by decide, by decide⟩,
    ⟨by set_option maxRecDepth 4000 in decide, by set_option maxRecDepth 4000 in decide⟩⟩

/-- C6 (amended): for every voice id of byte length at most 256 that
contains at least one character which is neither Unicode-alphanumeric
nor `'.'`, `'_'`, `'-'`, voice-id validation — as used by both `speak`
and `previewVoice` — yields `InvalidVoiceId`. (On ASCII input the
accepted charset coincides with the spec's `[A-Za-z0-9._-]`; voice ids
longer than 256 bytes yield `VoiceIdTooLong` instead.) -/
theorem c6_invalid_voice_id_amended (id : String)
    (hlen : utf8ByteLen id ≤ MAX_VOICE_ID_LENGTH)
    (hbad : ∃ c ∈ id.toList,
      (rustIsAlphanumeric c || c == '.' || c == '_' || c == '-') = false) :
    SpeakRequest.validate_voice_id id = .error .invalidVoiceId ∧
    PreviewVoiceRequest.validate ⟨id, none⟩ = .error .invalidVoiceId ∧
    SpeakRequest.validate ⟨"x", none, some id, 1, 1, 1, .flush⟩ =
      .error .invalidVoiceId := by
  have hall : (id.toList.all fun c =>
      rustIsAlphanumeric c || c == '.' || c == '_' || c == '-') = false := by
    rcases hbad with ⟨c, hc, hbadc⟩
    simp only [List.all_eq_false]
    refine ⟨c, hc, ?_⟩
    simp_all [Bool.or_eq_false_iff]
  have h1 : SpeakRequest.validate_voice_id id = .error .invalidVoiceId := by
    unfold SpeakRequest.validate_voice_id
    rw [if_neg (not_lt.mpr hlen)]
    split_ifs with hcond
    · rfl
    · exact absurd (by rw [hall]; rfl) hcond
  refine ⟨h1, ?_, ?_⟩
  · unfold PreviewVoiceRequest.validate
    rw [h1]
  · unfold SpeakRequest.validate
    simp only [transposeValidate, h1, Except.map]
    decide

theorem c6_witness :
    SpeakRequest.validate_voice_id "a!" = .error .invalidVoiceId ∧
    PreviewVoiceRequest.validate ⟨"a!", none⟩ = .error .invalidVoiceId ∧
    SpeakRequest.validate ⟨"x", none, some "a!", 1, 1, 1, .flush⟩ =
      .error .invalidVoiceId :=
  c6_invalid_voice_id_amended "a!" (by decide) ⟨'!', by decide, by decide⟩

theorem speakParamOps_all_defaults (env : EngineEnv) (v : ValidatedSpeakRequest)
    (hr : v.rate = 1.0) (hp : v.pitch = 1.0) (hvo : v.volume = 1.0) :
    speakParamOps env v = [] := by
  unfold speakParamOps
  rw [if_pos ⟨hr, hp, hvo⟩]

theorem speakVoiceOps_no_setter (env : EngineEnv) (v : ValidatedSpeakRequest) :
    ∀ ef ∈ speakVoiceOps env v, ef.isParamSetter = false := by
  unfold speakVoiceOps
  cases h : v.voice_id with
  | none => simp
  | some vid =>
    cases hv : env.voicesResult with
    | error e => simp [Effect.isParamSetter]
    | ok nvs =>
      cases hf : nvs.find? (fun nv => nv.id == vid) with
      | none => simp [hf, Effect.isParamSetter]
      | some nv => simp [hf, Effect.isParamSetter]

theorem emittedEventNames_nil : emittedEventNames [] = [] := rfl

theorem emittedEventNames_cons_emit (n : String) (ev : SpeechEvent) (t : List Effect) :
    emittedEventNames (Effect.emitEvent n ev :: t) = n :: emittedEventNames t := rfl

theorem emittedEventNames_cons_acquire (t : List Effect) :
    emittedEventNames (Effect.acquireEngineLock :: t) = emittedEventNames t := rfl

theorem emittedEventNames_engineSpeak (s : String) (i : Bool) :
    emittedEventNames [Effect.engineSpeak s i] = [] := rfl

theorem emittedEventNames_append (a b : List Effect) :
    emittedEventNames (a ++ b) = emittedEventNames a ++ emittedEventNames b :=
  List.filterMap_append a b _

theorem speakVoiceOps_no_emit (env : EngineEnv) (v : ValidatedSpeakRequest) :
    emittedEventNames (speakVoiceOps env v) = [] := by
  unfold speakVoiceOps emittedEventNames
  cases h : v.voice_id with
  | none => simp
  | some vid =>
    cases hv : env.voicesResult with
    | error e => simp
    | ok nvs =>
      cases hf : nvs.find? (fun nv => nv.id == vid) with
      | none => simp [hf]
      | some nv => simp [hf]

theorem speakParamOps_no_emit (env : EngineEnv) (v : ValidatedSpeakRequest) :
    emittedEventNames (speakParamOps env v) = [] := by
  unfold speakParamOps emittedEventNames
  split_ifs <;> simp

/-- C3: for every speak request that validates with rate, pitch and
volume all exactly 1.0, `speak` invokes none of the engine's `set_rate`,
`set_pitch` or `set_volume` setters. -/
theorem c3_speak_all_defaults_skips_setters (env : EngineEnv) (uid : String)
    (req : SpeakRequest) (v : ValidatedSpeakRequest) (hv : req.validate = .ok v)
    (hr : v.rate = 1.0) (hp : v.pitch = 1.0) (hvo : v.volume = 1.0) :
    ((Tts.speak env uid req).2.all fun ef => !ef.isParamSetter) = true := by
  unfold Tts.speak
  rw [hv]
  dsimp only
  by_cases hlp : env.lockPoisoned = true
  · simp [hlp, speakStartEvent, Effect.isParamSetter]
  · simp only [Bool.not_eq_true] at hlp
    rw [speakParamOps_all_defaults env v hr hp hvo]
    simp only [hlp, Bool.false_eq_true, if_false]
    have htr : ((speakStartEvent uid :: Effect.acquireEngineLock ::
        (speakVoiceOps env v ++ [] ++
          [Effect.engineSpeak v.text (v.queue_mode != QueueMode.add)])).all
        fun ef => !ef.isParamSetter) = true := by
      simp only [List.all_eq_true]
      intro ef hef
      rcases List.mem_cons.mp hef with h | hef2
      · subst h; rfl
      rcases List.mem_cons.mp hef2 with h | hef3
      · subst h; rfl
      rcases List.mem_append.mp hef3 with h34 | h5
      · rcases List.mem_append.mp h34 with h3 | h4
        · have hs := speakVoiceOps_no_setter env v ef h3
          simp [hs]
        · exact absurd h4 (List.not_mem_nil ef)
      · have h5' := List.mem_singleton.mp h5
        subst h5'; rfl
    rcases env.speakResult with e | u <;> exact htr

theorem defaultsRequest_validates :
    defaultsRequest.validate = .ok ⟨"Hi", none, some "voice-1", 1, 1, 1, .flush⟩ := by
  unfold defaultsRequest SpeakRequest.validate
  rw [if_neg (by decide), if_neg (by decide)]
  simp only [transposeValidate, SpeakRequest.validate_voice_id]
  rw [if_neg (by decide), if_neg (by decide)]
  simp only [Except.map]
  norm_num [clamp]

theorem c3_witness :
    ((Tts.speak sampleEngine "u" defaultsRequest).2.all fun ef => !ef.isParamSetter) = true :=
  c3_speak_all_defaults_skips_setters sampleEngine "u" defaultsRequest
    ⟨"Hi", none, some "voice-1", 1, 1, 1, .flush⟩ defaultsRequest_validates
    (by norm_num) (by norm_num) (by norm_num)

/-- C7: while a cached snapshot is younger than 60 seconds, `get_voices`
answers by filtering that same snapshot, leaves the cache unchanged and
does not invoke the engine's voice enumeration; once 60 seconds or more
have elapsed, the next call re-enumerates the engine and, on success,
replaces the cached snapshot wholesale with the freshly mapped voices
timestamped at the present call. -/
theorem c7_voice_cache_ttl (now : ℚ) (c : VoiceCache)
    (engineVoices : Except EngineError (List NativeVoice))
    (payload : GetVoicesRequest) (h0 : 0 ≤ now - c.cached_at) :
    (now - c.cached_at < 60 →
      Tts.get_voices (some c) now engineVoices payload =
        ⟨.ok (filter_voices c.voices payload.language), some c, false⟩) ∧
    (60 ≤ now - c.cached_at →
      (Tts.get_voices (some c) now engineVoices payload).engineEnumerated = true ∧
      ∀ nvs, engineVoices = .ok nvs →
        Tts.get_voices (some c) now engineVoices payload =
          ⟨.ok (filter_voices (nvs.map fun v => Voice.mk v.id v.name v.language)
              payload.language),
            some ⟨nvs.map fun v => Voice.mk v.id v.name v.language, now⟩, true⟩) := by
  constructor
  · intro h
    unfold Tts.get_voices
    simp [VoiceCache.is_valid, VoiceCache.TTL, h]
  · intro h
    have hnv : ¬ (now - c.cached_at < VoiceCache.TTL) := by
      rw [VoiceCache.TTL]
      exact not_lt.mpr h
    constructor
    · unfold Tts.get_voices
      simp only [VoiceCache.is_valid, decide_eq_true_eq, hnv, if_false]
      rcases engineVoices with e | nvs <;> rfl
    · intro nvs hnvs
      subst hnvs
      unfold Tts.get_voices
      simp only [VoiceCache.is_valid, decide_eq_true_eq, hnv, if_false]

theorem c7_witness :
    Tts.get_voices (some ⟨[⟨"v1", "Voice One", "en-US"⟩], 0⟩) 30 (.ok []) ⟨none⟩ =
      ⟨.ok (filter_voices [⟨"v1", "Voice One", "en-US"⟩] none),
        some ⟨[⟨"v1", "Voice One", "en-US"⟩], 0⟩, false⟩ :=
  (c7_voice_cache_ttl 30 ⟨[⟨"v1", "Voice One", "en-US"⟩], 0⟩ (.ok []) ⟨none⟩
    (by norm_num)).1 (by norm_num)

/-- C8 is false as stated: a speak invocation whose request fails
validation (here: empty text) returns before emitting anything, so no
`speech:start` event is emitted on that invocation at all. -/
theorem c8_counterexample :
    (Tts.speak sampleEngine "some-utterance-id" emptyTextRequest).2 = [] ∧
    (Tts.speak sampleEngine "some-utterance-id" emptyTextRequest).1 =
      .error (.validation .emptyText) := by
  constructor <;> decide

/-- C8 (amended): on every speak invocation whose request passes
validation, a `speech:start` event carrying the freshly generated
utterance identifier is the very first effect — in particular it is
emitted before the engine lock is acquired, which (when the lock is not
poisoned) is the immediately following effect. -/
theorem c8_start_emitted_before_lock (env : EngineEnv) (uid : String)
    (req : SpeakRequest) (v : ValidatedSpeakRequest) (hv : req.validate = .ok v) :
    ∃ rest, (Tts.speak env uid req).2 =
      Effect.emitEvent "speech:start" ⟨some uid, some "start"⟩ :: rest ∧
      (env.lockPoisoned = false → rest.head? = some Effect.acquireEngineLock) := by
  unfold Tts.speak
  rw [hv]
  by_cases hlp : env.lockPoisoned = true
  · exact ⟨[], by simp [hlp, speakStartEvent]⟩
  · simp only [Bool.not_eq_true] at hlp
    simp only [hlp, Bool.false_eq_true, if_false]
    rcases env.speakResult with e | u <;>
      exact ⟨Effect.acquireEngineLock ::
        (speakVoiceOps env v ++ speakParamOps env v ++
          [.engineSpeak v.text (v.queue_mode != QueueMode.add)]),
        by simp [speakStartEvent]⟩

theorem c8_witness :
    ∃ rest, (Tts.speak sampleEngine "u" defaultsRequest).2 =
      Effect.emitEvent "speech:start" ⟨some "u", some "start"⟩ :: rest ∧
      (sampleEngine.lockPoisoned = false → rest.head? = some Effect.acquireEngineLock) :=
  c8_start_emitted_before_lock sampleEngine "u" defaultsRequest
    ⟨"Hi", none, some "voice-1", 1, 1, 1, .flush⟩ defaultsRequest_validates

theorem speak_ok_shape (env : EngineEnv) (uid : String) (req : SpeakRequest)
    (resp : SpeakResponse) (h : (Tts.speak env uid req).1 = .ok resp) :
    resp = ⟨true, none⟩ := by
  unfold Tts.speak at h
  split at h
  · exact absurd h (by simp)
  · by_cases hlp : env.lockPoisoned = true
    · rw [if_pos hlp] at h
      have h' : (Except.error Error.mutexPoisoned : Except Error SpeakResponse) =
        Except.ok resp := h
      exact absurd h' (by simp)
    · rw [if_neg hlp] at h
      rcases hsr : env.speakResult with e | u
      · rw [hsr] at h
        have h' : (Except.error (Error.tts e) : Except Error SpeakResponse) =
          Except.ok resp := h
        exact absurd h' (by simp)
      · rw [hsr] at h
        have h' : Except.ok (SpeakResponse.mk true none) = Except.ok resp := h
        exact (Except.ok.inj h').symm

theorem preview_ok_shape (env : EngineEnv) (uid : String)
    (pv : PreviewVoiceRequest) (resp : SpeakResponse)
    (h : (Tts.preview_voice env uid pv).1 = .ok resp) : resp = ⟨true, none⟩ := by
  unfold Tts.preview_voice at h
  split at h
  · exact absurd h (by simp)
  · exact speak_ok_shape _ _ _ _ h

/-- C9: whenever `speak` or `preview_voice` returns a non-error response,
that response has `success = true` and `warning = none`; the warning
field is never populated. -/
theorem c9_success_response_shape (env : EngineEnv) (uid uid2 : String)
    (req : SpeakRequest) (pv : PreviewVoiceRequest) (resp1 resp2 : SpeakResponse)
    (h1 : (Tts.speak env uid req).1 = .ok resp1)
    (h2 : (Tts.preview_voice env uid2 pv).1 = .ok resp2) :
    (resp1.success = true ∧ resp1.warning = none) ∧
    (resp2.success = true ∧ resp2.warning = none) := by
  rw [speak_ok_shape env uid req resp1 h1, preview_ok_shape env uid2 pv resp2 h2]
  exact ⟨⟨rfl, rfl⟩, ⟨rfl, rfl⟩⟩

theorem speak_sample_ok :
    (Tts.speak sampleEngine "u" defaultsRequest).1 = .ok ⟨true, none⟩ := by
  unfold Tts.speak
  rw [defaultsRequest_validates]
  simp [sampleEngine]

theorem preview_sample_validate : samplePreview.validate = .ok () := by decide

theorem preview_sample_ok :
    (Tts.preview_voice sampleEngine "u2" samplePreview).1 = .ok ⟨true, none⟩ := by
  unfold Tts.preview_voice
  rw [preview_sample_validate]
  have hval : (⟨samplePreview.sample_text, none, some samplePreview.voice_id,
      1.0, 1.0, 1.0, QueueMode.flush⟩ : SpeakRequest).validate =
      .ok ⟨PreviewVoiceRequest.DEFAULT_SAMPLE_TEXT, none, some "voice-1", 1, 1, 1, .flush⟩ := by
    unfold samplePreview PreviewVoiceRequest.sample_text PreviewVoiceRequest.DEFAULT_SAMPLE_TEXT
      SpeakRequest.validate
    rw [if_neg (by decide), if_neg (by decide)]
    simp only [transposeValidate, SpeakRequest.validate_voice_id]
    rw [if_neg (by decide), if_neg (by decide)]
    simp only [Except.map]
    norm_num [clamp]
  unfold Tts.speak
  rw [hval]
  simp [sampleEngine]

theorem c9_witness :
    (((⟨true, none⟩ : SpeakResponse).success = true ∧
      (⟨true, none⟩ : SpeakResponse).warning = none) ∧
     ((⟨true, none⟩ : SpeakResponse).success = true ∧
      (⟨true, none⟩ : SpeakResponse).warning = none)) :=
  c9_success_response_shape sampleEngine "u" "u2" defaultsRequest samplePreview
    ⟨true, none⟩ ⟨true, none⟩ speak_sample_ok preview_sample_ok

theorem emitted_speak (env : EngineEnv) (uid : String) (req : SpeakRequest) :
    emittedEventNames (Tts.speak env uid req).2 = [] ∨
    emittedEventNames (Tts.speak env uid req).2 = ["speech:start"] := by
  unfold Tts.speak
  split
  · left; rfl
  · rename_i v heq
    split_ifs
    · right; rfl
    · have htail : emittedEventNames
          (speakVoiceOps env v ++ speakParamOps env v ++
            [Effect.engineSpeak v.text (v.queue_mode != QueueMode.add)]) = [] := by
        rw [emittedEventNames_append, emittedEventNames_append,
          speakVoiceOps_no_emit, speakParamOps_no_emit, emittedEventNames_engineSpeak]
        rfl
      rcases env.speakResult with e | u <;>
        (right
         dsimp only
         unfold speakStartEvent
         rw [emittedEventNames_cons_emit, emittedEventNames_cons_acquire, htail])

theorem emitted_stop (env : EngineEnv) :
    emittedEventNames (Tts.stop env).2 = ["speech:cancel"] := by
  unfold Tts.stop
  split_ifs
  · rfl
  · rcases env.stopResult with e | u <;> rfl

/-- C10: every event the plugin emits — from `speak`, from `stop`, and
from the two utterance callbacks installed at init — is delivered under
the `tts://`-prefixed event name (`tts://speech:start`,
`tts://speech:finish`, `tts://speech:cancel`), never under the bare
kind name. -/
theorem c10_event_names_prefixed (env : EngineEnv) (uid : String) (req : SpeakRequest) :
    ((emittedEventNames ((Tts.speak env uid req).2 ++ (Tts.stop env).2 ++
        [on_utterance_end_effect, on_utterance_stop_effect])).all deliveredNameOk) = true := by
  rw [emittedEventNames_append, emittedEventNames_append, emitted_stop]
  rcases emitted_speak env uid req with h | h <;> rw [h] <;> decide

end TtsPlugin
